import Mathlib

/-
Verification of muddle (tibs/muddle) against its specification.

Shallow embedding of the relevant parts of:
  muddled/utils.py      (split_domain, domain_subpath, find_root,
                         get_domain_name_from, run_cmd, HashFile, Error/Failure)
  muddled/pkgs/aptget.py (AptGetBuilder.already_installed / build_label)
  muddled/vcs/bazaar.py  (Bazaar.check_out / pull / update / commit / push)

Python strings are modelled as lists of characters (`PyStr`); machinery that
talks to the outside world (the filesystem, subprocesses, the host package
database, the SHA1 primitive from hashlib) is modelled by explicit parameters,
so that each definition is a pure, executable function of its inputs.
-/

namespace Muddle

/-- Exceptions raised by the modelled code: `utils.Error` (a traced muddle
error), `utils.Failure` (a muddle error which should not be backtraced),
Python's built-in `ValueError`, and `StopIteration` (used by iterator
protocol). -/
inductive PyError where
  | error (msg : String)
  | failure (msg : String)
  | valueError (msg : String)
  | stopIteration
deriving DecidableEq, Repr

/-- A Python string, modelled as its list of characters. -/
abbrev PyStr := List Char

/-- View a Lean string literal as a Python string (list of characters). -/
def pyStr (s : String) : PyStr := s.data

/-- Python's substring test `sub in s`: `sub` occurs contiguously in `s`. -/
def py_in (sub s : PyStr) : Bool := decide (sub <:+: s)

/-- `muddled/utils.py`, `split_domain(domain_name)`:

    if '(' not in domain_name:
        return [domain_name]
    if ')(' in domain_name:
        raise Failure('Domain name "%s" has ' "'sibling' sub-domains"%domain_name)
    parts = domain_name.split('(')
    num_closing = len(parts) - 1
    if not parts[-1].endswith( num_closing * ')' ):
        raise Failure('Domain name "%s" has mis-matched parentheses'%domain_name)
    parts[-1] = parts[-1][:- num_closing]
    return parts

Python's `str.split('(')` on a single-character separator is `List.splitOn '('`
(empty pieces are kept, and splitting the empty string yields `[""]`).
`parts` is never empty, so `parts[-1]` is `parts.getLastD []`.  In the final
branch `num_closing >= 1` (since '(' occurs in `domain_name`), so the Python
slice `parts[-1][:- num_closing]` is `take (length - num_closing)`. -/
def split_domain (domain_name : PyStr) : Except PyError (List PyStr) :=
  if ¬ domain_name.contains '(' then
    Except.ok [domain_name]
  else if py_in (pyStr ")(") domain_name then
    Except.error (PyError.failure
      ("Domain name \x22" ++ String.mk domain_name ++ "\x22 has \x27sibling\x27 sub-domains"))
  else
    let parts := domain_name.splitOn '('
    let num_closing := parts.length - 1
    if ¬ (List.replicate num_closing ')').isSuffixOf (parts.getLastD []) then
      Except.error (PyError.failure
        ("Domain name \x22" ++ String.mk domain_name ++ "\x22 has mis-matched parentheses"))
    else
      Except.ok (parts.dropLast ++
        [(parts.getLastD []).take ((parts.getLastD []).length - num_closing)])

/-- POSIX `os.path.join` for two components (the body of posixpath.join's
loop): if `b` starts with '/', it replaces the path built so far; if the
path so far is empty or ends with '/', `b` is appended directly; otherwise
a '/' separator is inserted. -/
def os_path_join2 (path b : PyStr) : PyStr :=
  if (pyStr "/").isPrefixOf b then b
  else if path = [] ∨ (pyStr "/").isSuffixOf path then path ++ b
  else path ++ pyStr "/" ++ b

/-- `os.path.join(a, *ps)`: fold `os_path_join2` over the remaining
components. -/
def os_path_join (a : PyStr) (ps : List PyStr) : PyStr :=
  ps.foldl os_path_join2 a

/-- `muddled/utils.py`, `domain_subpath(domain_name)`:

    parts = []
    for thing in split_domain(domain_name):
        parts.append('domains')
        parts.append(thing)
    return os.path.join(*parts)

`split_domain` never returns an empty list, so the `[]` case of the final
match (where Python's `os.path.join()` with no arguments would raise a
TypeError) is unreachable. -/
def domain_subpath (domain_name : PyStr) : Except PyError PyStr := do
  let elems ← split_domain domain_name
  let parts := elems.foldr (fun thing acc => pyStr "domains" :: thing :: acc) []
  match parts with
  | [] => throw (PyError.error "TypeError: join() takes at least 1 argument")
  | p :: ps => pure (os_path_join p ps)

/-- The path described by the specification for a list of domain components:
each element prefixed with "domains/", the results joined with "/", giving
`domains/<d1>/domains/<d2>/.../domains/<dn>`. -/
def spec_domains_path (elems : List PyStr) : PyStr :=
  List.intercalate (pyStr "/") (elems.map (fun e => pyStr "domains/" ++ e))

lemma split_domain_ok_ne_nil {d : PyStr} {elems : List PyStr}
    (h : split_domain d = Except.ok elems) : elems ≠ [] := by
  unfold split_domain at h
  split at h
  · cases h; simp
  · split at h
    · cases h
    · simp only at h
      split at h
      · cases h
      · cases h; simp

lemma isPrefixOf_singleton_iff (c : Char) (l : List Char) :
    List.isPrefixOf [c] l = true ↔ l.head? = some c := by
  cases l with
  | nil => simp [List.isPrefixOf]
  | cons x xs =>
    simp [List.isPrefixOf]
    exact eq_comm

lemma isSuffixOf_singleton_iff (c : Char) (l : List Char) :
    List.isSuffixOf [c] l = true ↔ l.getLast? = some c := by
  rw [List.isSuffixOf, show List.reverse [c] = [c] from rfl,
    isPrefixOf_singleton_iff, List.head?_reverse]

lemma getLast?_append_ne (l e : PyStr) (he1 : e ≠ []) (he3 : e.getLast? ≠ some '/') :
    (l ++ e).getLast? ≠ some '/' := by
  rw [List.getLast?_append]
  cases hx : e.getLast? with
  | none => exact absurd (List.getLast?_eq_none_iff.mp hx) he1
  | some x =>
    rw [hx] at he3
    rw [Option.or_some]
    exact he3

lemma os_path_join2_sep (acc b : PyStr) (h1 : acc ≠ []) (h2 : acc.getLast? ≠ some '/')
    (hb : b.head? ≠ some '/') :
    os_path_join2 acc b = acc ++ pyStr "/" ++ b := by
  unfold os_path_join2
  rw [if_neg, if_neg]
  · rintro (rfl | hsuf)
    · exact h1 rfl
    · exact h2 ((isSuffixOf_singleton_iff '/' acc).mp hsuf)
  · intro hpre
    exact hb ((isPrefixOf_singleton_iff '/' b).mp hpre)

lemma os_path_join_domains (acc : PyStr) (elems : List PyStr)
    (h1 : acc ≠ []) (h2 : acc.getLast? ≠ some '/')
    (hg : ∀ e ∈ elems, e ≠ [] ∧ e.head? ≠ some '/' ∧ e.getLast? ≠ some '/') :
    os_path_join acc (elems.foldr (fun t a => pyStr "domains" :: t :: a) []) =
      acc ++ (elems.map (fun e => pyStr "/domains/" ++ e)).flatten := by
  induction elems generalizing acc with
  | nil => simp [os_path_join]
  | cons e es ih =>
    obtain ⟨he1, he2, he3⟩ := hg e (by simp)
    have hstep1 : os_path_join2 acc (pyStr "domains") = acc ++ pyStr "/domains" := by
      rw [os_path_join2_sep acc (pyStr "domains") h1 h2 (by simp [pyStr])]
      simp [pyStr]
    have hacc1_ne : acc ++ pyStr "/domains" ≠ [] := by simp [pyStr]
    have hacc1_last : (acc ++ pyStr "/domains").getLast? ≠ some '/' := by
      rw [List.getLast?_append]
      simp [pyStr, List.getLast?]
    have hstep2 : os_path_join2 (acc ++ pyStr "/domains") e =
        acc ++ pyStr "/domains/" ++ e := by
      rw [os_path_join2_sep _ e hacc1_ne hacc1_last he2]
      simp [pyStr]
    have hacc2_ne : acc ++ pyStr "/domains/" ++ e ≠ [] := by
      simp [pyStr, he1]
    have hacc2_last : (acc ++ pyStr "/domains/" ++ e).getLast? ≠ some '/' :=
      getLast?_append_ne _ e he1 he3
    have := ih (acc ++ pyStr "/domains/" ++ e) hacc2_ne hacc2_last
      (fun x hx => hg x (by simp [hx]))
    simp only [List.foldr, os_path_join, List.foldl] at this ⊢
    rw [hstep1, hstep2, this]
    simp [List.append_assoc]

lemma intercalate_cons_flatten (sep x : PyStr) (xs : List PyStr) :
    List.intercalate sep (x :: xs) = x ++ (xs.map (fun y => sep ++ y)).flatten := by
  induction xs generalizing x with
  | nil => simp [List.intercalate]
  | cons y ys ih =>
    have hstep : List.intercalate sep (x :: y :: ys) =
        x ++ sep ++ List.intercalate sep (y :: ys) := by
      simp [List.intercalate, List.intersperse_cons_cons]
    rw [hstep, ih y]
    simp [List.append_assoc]

/-- C1: `split_domain` maps "a" to ["a"], "a(b)" to ["a","b"], and "a(b(c))"
to ["a","b","c"] (outer-to-inner order); it fails with a mismatched-parentheses
`Failure` on "a(b(c)" and with a sibling-domains `Failure` on "a(b)(c)". -/
theorem C1_split_domain_examples :
    split_domain (pyStr "a") = Except.ok [pyStr "a"] ∧
    split_domain (pyStr "a(b)") = Except.ok [pyStr "a", pyStr "b"] ∧
    split_domain (pyStr "a(b(c))") = Except.ok [pyStr "a", pyStr "b", pyStr "c"] ∧
    split_domain (pyStr "a(b(c)") = Except.error (PyError.failure
      ("Domain name \x22a(b(c)\x22 has mis-matched parentheses")) ∧
    split_domain (pyStr "a(b)(c)") = Except.error (PyError.failure
      ("Domain name \x22a(b)(c)\x22 has \x27sibling\x27 sub-domains")) :=
  ⟨rfl, rfl, rfl, rfl, rfl⟩

/-- C2 counterexample: the claim says `split_domain` raises a `Failure` on
every domain string with unbalanced parentheses, including "a)b" (a ')' with
no '(') and "a(b))" (a surplus closing parenthesis).  In fact both are
accepted: "a)b" has no '(' at all so it is returned as a one-element list,
and in "a(b))" only one trailing ')' is checked and stripped, so the surplus
')' survives inside the final component. -/
theorem C2_counterexample_unbalanced_accepted :
    split_domain (pyStr "a)b") = Except.ok [pyStr "a)b"] ∧
    split_domain (pyStr "a(b))") = Except.ok [pyStr "a", pyStr "b)"] :=
  ⟨rfl, rfl⟩

/-- C2 (amended): every error `split_domain` raises is the recoverable
non-traced `Failure` class (never the traced `Error` class); but not every
unbalanced-parenthesis string is rejected: a string with ')' but no '(' (such
as "a)b"), or with surplus closing parentheses absorbed into the final
segment (such as "a(b))"), is returned as a result instead. -/
theorem C2_split_domain_errors_are_failures :
    (∀ (s : PyStr) (e : PyError), split_domain s = Except.error e →
      ∃ msg, e = PyError.failure msg) ∧
    split_domain (pyStr "a)b") = Except.ok [pyStr "a)b"] ∧
    split_domain (pyStr "a(b))") = Except.ok [pyStr "a", pyStr "b)"] := by
  refine ⟨?_, rfl, rfl⟩
  intro s e h
  unfold split_domain at h
  split at h
  · cases h
  · split at h
    · cases h
      exact ⟨_, rfl⟩
    · simp only at h
      split at h
      · cases h
        exact ⟨_, rfl⟩
      · cases h

/-- Witness for C2: the sibling-domains rejection of "a(b)(c)" is indeed a
`Failure`. -/
theorem C2_split_domain_errors_are_failures_witness :
    ∃ msg, PyError.failure
        ("Domain name \x22a(b)(c)\x22 has \x27sibling\x27 sub-domains") =
      PyError.failure msg :=
  C2_split_domain_errors_are_failures.1 (pyStr "a(b)(c)")
    (PyError.failure ("Domain name \x22a(b)(c)\x22 has \x27sibling\x27 sub-domains")) rfl

/-- C3 counterexample: the claim quantifies over every string on which
`split_domain` succeeds.  For d = "/x", `split_domain` succeeds with ["/x"],
but `os.path.join` treats the component "/x" as absolute and discards the
"domains" prefix, so `domain_subpath` returns "/x" and not "domains//x" as
the claim's formula requires. -/
theorem C3_counterexample_leading_slash :
    split_domain (pyStr "/x") = Except.ok [pyStr "/x"] ∧
    domain_subpath (pyStr "/x") = Except.ok (pyStr "/x") ∧
    spec_domains_path [pyStr "/x"] = pyStr "domains//x" ∧
    domain_subpath (pyStr "/x") ≠ Except.ok (spec_domains_path [pyStr "/x"]) := by
  refine ⟨rfl, rfl, rfl, ?_⟩
  intro h
  rw [show domain_subpath (pyStr "/x") = Except.ok (pyStr "/x") from rfl] at h
  exact absurd (Except.ok.inj h) (by decide)

/-- C3 (amended): for every domain string d on which `split_domain` succeeds
and whose returned components are each nonempty and neither begin nor end
with '/', `domain_subpath(d)` equals the path built by prefixing each element
of `split_domain(d)` with "domains/" and joining with "/":
`domains/<d1>/domains/<d2>/.../domains/<dn>`.  (Without the component
restriction, `os.path.join`'s absolute-component and trailing-slash handling
can diverge from that formula, as the counterexample d = "/x" shows.) -/
theorem C3_domain_subpath_eq_spec_path (d : PyStr) (elems : List PyStr)
    (hs : split_domain d = Except.ok elems)
    (hg : ∀ e ∈ elems, e ≠ [] ∧ e.head? ≠ some '/' ∧ e.getLast? ≠ some '/') :
    domain_subpath d = Except.ok (spec_domains_path elems) := by
  have hne := split_domain_ok_ne_nil hs
  unfold domain_subpath
  rw [hs]
  cases elems with
  | nil => exact absurd rfl hne
  | cons e es =>
    obtain ⟨he1, he2, he3⟩ := hg e (by simp)
    show Except.ok (os_path_join (pyStr "domains")
      (e :: es.foldr (fun thing acc => pyStr "domains" :: thing :: acc) [])) = _
    congr 1
    have hstep : os_path_join2 (pyStr "domains") e = pyStr "domains/" ++ e := by
      rw [os_path_join2_sep (pyStr "domains") e (by simp [pyStr]) (by decide) he2]
      rfl
    have hfirst_ne : pyStr "domains/" ++ e ≠ [] := by simp [pyStr]
    have hfirst_last : (pyStr "domains/" ++ e).getLast? ≠ some '/' :=
      getLast?_append_ne _ e he1 he3
    have hjoin := os_path_join_domains (pyStr "domains/" ++ e) es hfirst_ne hfirst_last
      (fun x hx => hg x (by simp [hx]))
    show List.foldl os_path_join2 (pyStr "domains")
      (e :: es.foldr (fun thing acc => pyStr "domains" :: thing :: acc) []) = _
    rw [List.foldl, hstep]
    rw [show List.foldl os_path_join2 (pyStr "domains/" ++ e)
        (es.foldr (fun thing acc => pyStr "domains" :: thing :: acc) []) =
      os_path_join (pyStr "domains/" ++ e)
        (es.foldr (fun thing acc => pyStr "domains" :: thing :: acc) []) from rfl]
    rw [hjoin, spec_domains_path, List.map_cons, intercalate_cons_flatten]
    rw [List.map_map]
    rfl

/-- Witness for C3: at d = "a(b)" the components are good and the subpath is
"domains/a/domains/b". -/
theorem C3_domain_subpath_eq_spec_path_witness :
    domain_subpath (pyStr "a(b)") =
      Except.ok (spec_domains_path [pyStr "a", pyStr "b"]) :=
  C3_domain_subpath_eq_spec_path (pyStr "a(b)") [pyStr "a", pyStr "b"] rfl (by decide)

/-
Directory-to-root resolution (`muddled/utils.py`: `is_subdomain`,
`get_domain_name_from`, `find_root`).

A normalised absolute directory path is modelled as its list of path
components ([] is the filesystem root '/'); `os.path.split` maps
`c1/.../cn` to (`c1/.../c(n-1)`, `cn`) and '/' to ('/', '').  The
filesystem itself is abstracted to the two existence tests the code
performs: `os.path.exists(os.path.join(dir, ".muddle"))` and
`os.path.exists(os.path.join(dir, ".muddle", "am_subdomain"))`
(`is_subdomain`).
-/

/-- The two filesystem queries `find_root` makes about a directory. -/
structure FS where
  muddleExists : List String → Bool
  amSubdomain : List String → Bool

/-- `os.path.split` on a normalised absolute path given as components:
split off the last component; the root '/' splits to itself and ''. -/
def os_split (dir : List String) : List String × String :=
  match dir.getLast? with
  | none => ([], "")
  | some b => (dir.dropLast, b)

/-- `muddled/utils.py`, `get_domain_name_from(dir)`:

    head, domain_name = os.path.split(dir)
    head, should_be_domains = os.path.split(head)
    if should_be_domains == 'domains':
        return domain_name
    else:
        raise Error("Cannot find domain name for '%s' because it is not"
                    " '<something>/domains/<domain_name>' (unexpected '%s')"...)
-/
def get_domain_name_from (dir : List String) : Except PyError String :=
  let p1 := os_split dir
  let p2 := os_split p1.1
  if p2.2 = "domains" then
    Except.ok p1.2
  else
    Except.error (PyError.error
      ("Cannot find domain name because the directory is not "
        ++ "<something>/domains/<domain_name> (unexpected " ++ p2.2 ++ ")"))

/-- The loop body of `muddled/utils.py`'s `find_root(dir)`:

    while True:
        if os.path.exists(os.path.join(dir, ".muddle")):
            if is_subdomain(dir):
                new_domain = get_domain_name_from(dir)
                if (current_domain is None):
                    current_domain = new_domain
                else:
                    current_domain = "%s(%s)"%(new_domain,current_domain)
            else:
                return (dir, current_domain)
        up1, basename = os.path.split(dir)
        if up1 == dir or dir == '/':    # We're done
            break
        dir = up1
    return (None, None)

In the component model `up1 == dir or dir == '/'` holds exactly when
`dir = []`.  The `fuel` argument only bounds the recursion (each step strips
one component, so `dir.length + 1` is always enough); the fuel-exhausted case
is unreachable. -/
def find_root_aux (fs : FS) :
    Nat → List String → Option String →
      Except PyError (Option (List String) × Option String)
  | 0, _, _ => Except.ok (none, none)
  | fuel + 1, dir, current_domain =>
    if fs.muddleExists dir then
      if fs.amSubdomain dir then
        match get_domain_name_from dir with
        | Except.error e => Except.error e
        | Except.ok new_domain =>
          let cd := match current_domain with
            | none => new_domain
            | some c => new_domain ++ "(" ++ c ++ ")"
          if dir = [] then Except.ok (none, none)
          else find_root_aux fs fuel dir.dropLast (some cd)
      else Except.ok (some dir, current_domain)
    else
      if dir = [] then Except.ok (none, none)
      else find_root_aux fs fuel dir.dropLast current_domain

/-- `find_root(dir)`: climb from `dir` towards the root, composing subdomain
names, until a non-subdomain build root is found. -/
def find_root (fs : FS) (dir : List String) :
    Except PyError (Option (List String) × Option String) :=
  find_root_aux fs (dir.length + 1) dir none

/-- The concrete nested-domain fixture for C4: a true (non-subdomain) build
root at /fs/root, a subdomain "outer" at /fs/root/domains/outer, a subdomain
"inner" at /fs/root/domains/outer/domains/inner, and (to show that climbing
stops at the first non-subdomain root) a further marked build root above at
/fs. -/
def c4_root : List String := ["fs", "root"]

def c4_outerDir : List String := ["fs", "root", "domains", "outer"]

def c4_innerDir : List String := ["fs", "root", "domains", "outer", "domains", "inner"]

def c4_fs : FS where
  muddleExists := fun d =>
    d == c4_root || d == c4_outerDir || d == c4_innerDir || d == ["fs"]
  amSubdomain := fun d => d == c4_outerDir || d == c4_innerDir

/-- C4: `find_root`, started in a directory nested below two subdomain-marked
roots under a true (non-subdomain) root, returns that true root directory with
the composed domain name "outer(inner)".  The first subdomain marker met while
climbing (the closest-enclosing, "inner") becomes the inner component; the
enclosing marker found later ("outer") becomes the outer component; climbing
stops at the first non-subdomain marked root (/fs/root), not at the marked
root above it (/fs). -/
theorem C4_find_root_composes_domains :
    find_root c4_fs (c4_innerDir ++ ["src", "pkg"]) =
      Except.ok (some c4_root, some "outer(inner)") := rfl

/-
The package-installer Builder (`muddled/pkgs/aptget.py`).

`already_installed` (a dpkg-query subprocess plus output parsing) is the
host package database query the spec treats as an external collaborator; it
is modelled as a Bool-valued parameter.  `subprocess.call(cmd_list)` — the
single install invocation — is modelled by a parameter giving the exit
status of a command line, and `build_label` additionally returns the list of
install command lines it issued, so "exactly one invocation with these
arguments" is expressible.
-/

/- Tag names from `muddled/utils.py`'s `Tags` class (package lifecycle
subset). -/
namespace Tags

def PreConfig : String := "preconfig"

def Configured : String := "configured"

def Built : String := "built"

def Installed : String := "installed"

def PostInstalled : String := "postinstalled"

end Tags

/-- Modelled from the spec: `muddled/pkgs/aptget.py` compares `label.tag`
against `utils.LabelTag.Built`, a name that does not exist in
`src/muddled/utils.py` (which defines the same tag vocabulary in a class
named `Tags`).  Per the spec's tag vocabulary (section 3: Package:
`preconfig → configured → built → installed → postinstalled`) the Built tag
is the string "built", i.e. `utils.Tags.Built`. -/
def LabelTag.Built : String := Tags.Built

/-- Modelled from the spec: `muddled/pkgs/aptget.py` raises `utils.GiveUp`,
a class that does not exist in `src/muddled/utils.py`.  Per the spec's error
model (section 7), a failed external install is an expected, user-actionable
condition, reported by the plain (recoverable, non-traced) failure class —
`utils.Failure` in `src/muddled/utils.py`. -/
def GiveUp (msg : String) : PyError := PyError.failure msg

/-- `AptGetBuilder(name, role, pkgs_to_install)`. -/
structure AptGetBuilder where
  name : String
  role : Option String
  pkgs_to_install : List String

/-- `muddled/pkgs/aptget.py`, `AptGetBuilder.build_label(builder, label)`:

    if (label.tag == utils.LabelTag.Built):
        need_to_install = [ ]
        for cur_pkg in self.pkgs_to_install:
            if (not self.already_installed(cur_pkg)):
                need_to_install.append(cur_pkg)
        if (len(need_to_install) > 0):
            cmd_list = [ "sudo", "apt-get", "install" ]
            cmd_list.extend(need_to_install)
            rv = subprocess.call(cmd_list)
            if rv != 0:
                raise utils.GiveUp("Couldn't install required packages")

`already_installed` is the host package-database query, `install_exit` the
exit status of the install subprocess.  Returns the list of install command
lines issued together with the normal/raise outcome. -/
def AptGetBuilder.build_label (self : AptGetBuilder)
    (already_installed : String → Bool) (install_exit : List String → Int)
    (tag : String) : List (List String) × Except PyError Unit :=
  if tag = LabelTag.Built then
    let need_to_install := self.pkgs_to_install.filter (fun p => ¬ already_installed p)
    if need_to_install.length > 0 then
      let cmd_list := ["sudo", "apt-get", "install"] ++ need_to_install
      let rv := install_exit cmd_list
      if rv ≠ 0 then
        ([cmd_list], Except.error (GiveUp "Couldn\x27t install required packages"))
      else
        ([cmd_list], Except.ok ())
    else
      ([], Except.ok ())
  else
    ([], Except.ok ())

/-- C5: for the package-installer Builder invoked on its terminal tag with
packages ["a","b"]: if the host query reports "a" installed and "b" not,
exactly one install invocation is issued, with argument set ["b"]; if the
query reports both installed, no install invocation is issued. -/
theorem C5_aptget_installs_missing_subset :
    (AptGetBuilder.build_label ⟨"aptpkg", none, ["a", "b"]⟩
        (fun p => p == "a") (fun _ => 0) LabelTag.Built).1 =
      [["sudo", "apt-get", "install", "b"]] ∧
    (AptGetBuilder.build_label ⟨"aptpkg", none, ["a", "b"]⟩
        (fun _ => true) (fun _ => 0) LabelTag.Built).1 = [] :=
  ⟨rfl, rfl⟩

/-- C6: whenever the single install invocation exits non-zero, `build_label`
raises the recoverable non-traced failure (`GiveUp`, the spec's plain-failure
class) — it never returns normally in that case. -/
theorem C6_aptget_nonzero_exit_raises (self : AptGetBuilder)
    (already_installed : String → Bool) (install_exit : List String → Int)
    (hneed : self.pkgs_to_install.filter (fun p => ¬ already_installed p) ≠ [])
    (hexit : install_exit (["sudo", "apt-get", "install"] ++
      self.pkgs_to_install.filter (fun p => ¬ already_installed p)) ≠ 0) :
    (self.build_label already_installed install_exit LabelTag.Built).2 =
      Except.error (PyError.failure "Couldn\x27t install required packages") := by
  unfold AptGetBuilder.build_label
  rw [if_pos rfl]
  rw [if_pos (by simpa [List.length_pos] using hneed)]
  rw [if_pos hexit]
  rfl

/-- Witness for C6: one package, not installed, installer exits 1. -/
theorem C6_aptget_nonzero_exit_raises_witness :
    (AptGetBuilder.build_label ⟨"aptpkg", none, ["b"]⟩
        (fun _ => false) (fun _ => 1) LabelTag.Built).2 =
      Except.error (PyError.failure "Couldn\x27t install required packages") :=
  C6_aptget_nonzero_exit_raises ⟨"aptpkg", none, ["b"]⟩
    (fun _ => false) (fun _ => 1) (by decide) (by decide)

/-
`muddled/utils.py` `run_cmd` and the Bazaar VCS handler
(`muddled/vcs/bazaar.py`).

The shell is modelled by a parameter `exit_of` giving each command line's
exit status.  `run_cmd`'s printing, and the handler's `ensure_dir`/`os.chdir`
calls (directory bookkeeping with no bearing on the failure contract), are
not modelled.  The Python methods discard `run_cmd`'s return value and
return None; here each operation returns the last `run_cmd` result so the
returned exit status is visible.
-/

/-- `muddled/utils.py`, `run_cmd(cmd, env, allowFailure, isSystem, verbose)`:

    rv = subprocess.call(cmd, shell = True, env = env)
    if allowFailure or rv == 0:
        return rv
    else:
        if isSystem:
            raise Error("Command '%s' execution failed - %d"%(cmd,rv))
        else:
            raise Failure("Command '%s' execution failed - %d"%(cmd,rv))
-/
def runCmd (exit_of : String → Int) (cmd : String) (allowFailure : Bool)
    (isSystem : Bool) : Except PyError Int :=
  let rv := exit_of cmd
  if allowFailure ∨ rv = 0 then
    Except.ok rv
  else if isSystem then
    Except.error (PyError.error
      ("Command \x27" ++ cmd ++ "\x27 execution failed - " ++ toString rv))
  else
    Except.error (PyError.failure
      ("Command \x27" ++ cmd ++ "\x27 execution failed - " ++ toString rv))

/-- The bindings of a `Bazaar` VersionControlHandler (fields used by the
five operations). -/
structure Bazaar where
  bzr_repo : String
  checkout_name : String
  revision : Option String
  co_path : String

/-- `muddled/vcs/bazaar.py`, `r_option`:

    if ((self.revision is None) or (self.revision == "HEAD")):
        return ""
    else:
        return "-r %s"%(self.revision)
-/
def Bazaar.r_option (self : Bazaar) : String :=
  match self.revision with
  | none => ""
  | some r => if r = "HEAD" then "" else "-r " ++ r

/-- `check_out`: `bzr co %s %s %s` then `bzr unbind`, both with run_cmd's
default `allowFailure = False, isSystem = False`. -/
def Bazaar.check_out (exit_of : String → Int) (self : Bazaar) :
    Except PyError Int := do
  let _ ← runCmd exit_of
    ("bzr co " ++ self.r_option ++ " " ++ self.bzr_repo ++ " " ++ self.checkout_name)
    false false
  runCmd exit_of "bzr unbind" false false

/-- `pull`: `bzr pull %s` with run_cmd defaults. -/
def Bazaar.pull (exit_of : String → Int) (self : Bazaar) : Except PyError Int :=
  runCmd exit_of ("bzr pull " ++ self.bzr_repo) false false

/-- `update`: `bzr update` with `allowFailure = True`. -/
def Bazaar.update (exit_of : String → Int) (_self : Bazaar) : Except PyError Int :=
  runCmd exit_of "bzr update" true false

/-- `commit`: `bzr commit` with run_cmd defaults. -/
def Bazaar.commit (exit_of : String → Int) (_self : Bazaar) : Except PyError Int :=
  runCmd exit_of "bzr commit" false false

/-- `push`: `bzr push %s` with run_cmd defaults. -/
def Bazaar.push (exit_of : String → Int) (self : Bazaar) : Except PyError Int :=
  runCmd exit_of ("bzr push " ++ self.bzr_repo) false false

/-- `must_update_to_commit`: Bazaar is distributed, so False. -/
def Bazaar.must_update_to_commit (_self : Bazaar) : Bool := false

/-- C9: for the Bazaar handler, `update()` never raises — a non-zero exit of
`bzr update` is tolerated and the exit status returned — whereas a non-zero
exit during `check_out()` (of either of its two commands), `pull()`,
`commit()` or `push()` raises the non-traced `Failure`; update is thus the
only one of the five operations run with failure allowed. -/
theorem C9_bazaar_update_only_tolerates_failure (exit_of : String → Int)
    (b : Bazaar)
    (hco : exit_of ("bzr co " ++ b.r_option ++ " " ++ b.bzr_repo ++ " "
      ++ b.checkout_name) ≠ 0)
    (hpull : exit_of ("bzr pull " ++ b.bzr_repo) ≠ 0)
    (hcommit : exit_of "bzr commit" ≠ 0)
    (hpush : exit_of ("bzr push " ++ b.bzr_repo) ≠ 0) :
    b.update exit_of = Except.ok (exit_of "bzr update") ∧
    b.check_out exit_of = Except.error (PyError.failure
      ("Command \x27" ++ ("bzr co " ++ b.r_option ++ " " ++ b.bzr_repo ++ " "
        ++ b.checkout_name) ++ "\x27 execution failed - "
        ++ toString (exit_of ("bzr co " ++ b.r_option ++ " " ++ b.bzr_repo
          ++ " " ++ b.checkout_name)))) ∧
    b.pull exit_of = Except.error (PyError.failure
      ("Command \x27" ++ ("bzr pull " ++ b.bzr_repo) ++ "\x27 execution failed - "
        ++ toString (exit_of ("bzr pull " ++ b.bzr_repo)))) ∧
    b.commit exit_of = Except.error (PyError.failure
      ("Command \x27bzr commit\x27 execution failed - "
        ++ toString (exit_of "bzr commit"))) ∧
    b.push exit_of = Except.error (PyError.failure
      ("Command \x27" ++ ("bzr push " ++ b.bzr_repo) ++ "\x27 execution failed - "
        ++ toString (exit_of ("bzr push " ++ b.bzr_repo)))) := by
  refine ⟨?_, ?_, ?_, ?_, ?_⟩
  · unfold Bazaar.update runCmd
    rw [if_pos (Or.inl rfl)]
  · unfold Bazaar.check_out runCmd
    rw [if_neg (by simpa using hco)]
    rfl
  · unfold Bazaar.pull runCmd
    rw [if_neg (by simpa using hpull)]
    rfl
  · unfold Bazaar.commit runCmd
    rw [if_neg (by simpa using hcommit)]
    rfl
  · unfold Bazaar.push runCmd
    rw [if_neg (by simpa using hpush)]
    rfl

/-- Witness for C9: every bzr command exits 1. -/
theorem C9_bazaar_update_only_tolerates_failure_witness :
    Bazaar.update (fun _ => 1) ⟨"http+u", "co", none, "p"⟩ = Except.ok 1 ∧
    Bazaar.check_out (fun _ => 1) ⟨"http+u", "co", none, "p"⟩ =
      Except.error (PyError.failure
        "Command \x27bzr co  http+u co\x27 execution failed - 1") ∧
    Bazaar.pull (fun _ => 1) ⟨"http+u", "co", none, "p"⟩ =
      Except.error (PyError.failure
        "Command \x27bzr pull http+u\x27 execution failed - 1") ∧
    Bazaar.commit (fun _ => 1) ⟨"http+u", "co", none, "p"⟩ =
      Except.error (PyError.failure
        "Command \x27bzr commit\x27 execution failed - 1") ∧
    Bazaar.push (fun _ => 1) ⟨"http+u", "co", none, "p"⟩ =
      Except.error (PyError.failure
        "Command \x27bzr push http+u\x27 execution failed - 1") :=
  C9_bazaar_update_only_tolerates_failure (fun _ => 1) ⟨"http+u", "co", none, "p"⟩
    (by decide) (by decide) (by decide) (by decide)

/-
`muddled/utils.py`'s `HashFile`.

The underlying file descriptor is modelled by `toRead` (the not-yet-read
remainder of the file's content, read mode) and `written` (the content
produced so far, write mode; `open(name, 'w')` truncates, so it starts
empty).  The `hashlib.sha1()` accumulator is modelled by `sha`, the exact
sequence of characters fed to `sha.update` so far; `hexdigest()` — an
external, deterministic, non-mutating primitive — is a parameter
`hexdigest : List Char → String` applied to that sequence, so every theorem
below holds for the real SHA1 in particular. -/

/-- A `HashFile` object's state: name, mode ('r' or 'w' once constructed),
file-descriptor state and the accumulated SHA1 input. -/
structure HashFile where
  name : String
  mode : String
  toRead : List Char
  written : List Char
  sha : List Char
deriving DecidableEq, Repr

/-- `HashFile.__init__(self, name, mode='r')`:

    if mode not in ('r', 'w'):
        raise ValueError("HashFile 'mode' must be one of 'r' or 'w', not '%s'"%mode)
    self.name = name
    self.mode = mode
    self.fd = open(name, mode)
    self.sha = hashlib.sha1()

`file_content` is the on-disk content `open` finds (only relevant in read
mode; write mode truncates). -/
def HashFile.open_file (name : String) (mode : String) (file_content : List Char) :
    Except PyError HashFile :=
  if mode ≠ "r" ∧ mode ≠ "w" then
    Except.error (PyError.valueError
      ("HashFile \x27mode\x27 must be one of \x27r\x27 or \x27w\x27, not \x27"
        ++ mode ++ "\x27"))
  else
    Except.ok { name := name, mode := mode,
                toRead := if mode = "r" then file_content else [],
                written := [], sha := [] }

/-- `HashFile.write(self, text)`:

    if self.mode != 'w':
        raise Error("Cannot write to HashFile '%s', opened for read"%self.name)
    self.fd.write(text)
    self.sha.update(text)
-/
def HashFile.write (hf : HashFile) (text : List Char) : Except PyError HashFile :=
  if hf.mode ≠ "w" then
    Except.error (PyError.error
      ("Cannot write to HashFile \x27" ++ hf.name ++ "\x27, opened for read"))
  else
    Except.ok { hf with written := hf.written ++ text, sha := hf.sha ++ text }

/-- Python's `fd.readline()` on the remaining content: the characters up to
and including the next newline (or up to EOF), and the rest. -/
def py_readline (cs : List Char) : List Char × List Char :=
  match cs with
  | [] => ([], [])
  | c :: rest =>
    if c = '\n' then ([c], rest)
    else
      let p := py_readline rest
      (c :: p.1, p.2)

/-- `HashFile.readline(self)`:

    if self.mode != 'r':
        raise Error("Cannot read from HashFile '%s', opened for write"%self.name)
    text = self.fd.readline()
    if text == '':
        return ''
    else:
        self.sha.update(text)
        return text
-/
def HashFile.readline (hf : HashFile) : Except PyError (List Char × HashFile) :=
  if hf.mode ≠ "r" then
    Except.error (PyError.error
      ("Cannot read from HashFile \x27" ++ hf.name ++ "\x27, opened for write"))
  else
    let p := py_readline hf.toRead
    if p.1 = [] then
      Except.ok ([], { hf with toRead := p.2 })
    else
      Except.ok (p.1, { hf with toRead := p.2, sha := hf.sha ++ p.1 })

/-- `HashFile.hash(self)`: `return self.sha.hexdigest()`. -/
def HashFile.hash (hexdigest : List Char → String) (hf : HashFile) : String :=
  hexdigest hf.sha

/-- `HashFile.__iter__(self)`:

    if self.mode != 'r':
        raise Error("Cannot iterate over HashFile '%s', opened for write"%self.name)
    return self
-/
def HashFile.iter (hf : HashFile) : Except PyError HashFile :=
  if hf.mode ≠ "r" then
    Except.error (PyError.error
      ("Cannot iterate over HashFile \x27" ++ hf.name ++ "\x27, opened for write"))
  else
    Except.ok hf

/-- `HashFile.next(self)`: readline, raising StopIteration at EOF. -/
def HashFile.next (hf : HashFile) : Except PyError (List Char × HashFile) :=
  match hf.readline with
  | Except.error e => Except.error e
  | Except.ok (text, hf1) =>
    if text = [] then Except.error PyError.stopIteration
    else Except.ok (text, hf1)

/-- Feed `chunks` through `HashFile.write` one after the other. -/
def writeAll (hf : HashFile) : List (List Char) → Except PyError HashFile
  | [] => Except.ok hf
  | c :: rest => (hf.write c).bind (fun h => writeAll h rest)

/-- Call `HashFile.readline` until it returns '' (the `for line in fd: pass`
loop of `calc_file_hash`).  The fuel argument only bounds the recursion:
each successful non-empty read strictly shrinks `toRead`, so
`hf.toRead.length + 1` is always enough. -/
def readAllLoop : Nat → HashFile → Except PyError HashFile
  | 0, hf => Except.ok hf
  | fuel + 1, hf =>
    match hf.readline with
    | Except.error e => Except.error e
    | Except.ok (text, hf1) =>
      if text = [] then Except.ok hf1
      else readAllLoop fuel hf1

/-- Read the whole file through `readline`. -/
def readAll (hf : HashFile) : Except PyError HashFile :=
  readAllLoop (hf.toRead.length + 1) hf

lemma py_readline_append (cs : List Char) :
    (py_readline cs).1 ++ (py_readline cs).2 = cs := by
  induction cs with
  | nil => rfl
  | cons c rest ih =>
    rw [py_readline]
    split
    · simp_all
    · simpa using ih

lemma py_readline_nil_iff (cs : List Char) :
    (py_readline cs).1 = [] ↔ cs = [] := by
  cases cs with
  | nil => simp [py_readline]
  | cons c rest =>
    rw [py_readline]
    split <;> simp

lemma writeAll_w (chunks : List (List Char)) (hf : HashFile) (hw : hf.mode = "w") :
    writeAll hf chunks = Except.ok { hf with written := hf.written ++ chunks.flatten,
                                             sha := hf.sha ++ chunks.flatten } := by
  induction chunks generalizing hf with
  | nil => simp [writeAll]
  | cons c rest ih =>
    rw [writeAll, HashFile.write, if_neg (by simp [hw])]
    have h2 := ih { hf with written := hf.written ++ c, sha := hf.sha ++ c }
      (by simp [hw])
    rw [Except.bind, h2]
    simp [List.append_assoc]

lemma readAllLoop_r (fuel : Nat) (hf : HashFile) (hr : hf.mode = "r")
    (hfuel : hf.toRead.length < fuel) :
    readAllLoop fuel hf =
      Except.ok { hf with toRead := [], sha := hf.sha ++ hf.toRead } := by
  induction fuel generalizing hf with
  | zero => omega
  | succ fuel ih =>
    rw [readAllLoop]
    by_cases hnil : (py_readline hf.toRead).1 = []
    · have h0 : hf.toRead = [] := (py_readline_nil_iff _).mp hnil
      have hrl : hf.readline =
          Except.ok ([], { hf with toRead := (py_readline hf.toRead).2 }) := by
        rw [HashFile.readline, if_neg (by simp [hr]), if_pos hnil]
      rw [hrl]
      dsimp only
      simp [h0, py_readline]
    · have hrl : hf.readline = Except.ok ((py_readline hf.toRead).1,
          { hf with toRead := (py_readline hf.toRead).2,
                    sha := hf.sha ++ (py_readline hf.toRead).1 }) := by
        rw [HashFile.readline, if_neg (by simp [hr]), if_neg hnil]
      rw [hrl]
      dsimp only
      rw [if_neg hnil]
      have happ := py_readline_append hf.toRead
      have hlen : (py_readline hf.toRead).2.length < hf.toRead.length := by
        conv_rhs => rw [← happ]
        rw [List.length_append]
        have : (py_readline hf.toRead).1.length ≠ 0 := by
          simpa [List.length_eq_zero] using hnil
        omega
      have hrec := ih { hf with toRead := (py_readline hf.toRead).2,
                                sha := hf.sha ++ (py_readline hf.toRead).1 }
        (by simp [hr]) (by simp; omega)
      rw [hrec]
      simp only [List.append_assoc, happ]

/-- C7: for every content, writing it chunk by chunk through a write-mode
HashFile and separately reading the identical content through a read-mode
HashFile via readline yield identical hash() digests — and both equal the
digest of exactly the file content, whatever (deterministic) hex-digest
function SHA1 is.  The digest is a function of the content only, independent
of mode. -/
theorem C7_hashfile_digest_mode_independent (hexdigest : List Char → String)
    (wname rname : String) (lines : List (List Char)) :
    ((HashFile.open_file wname "w" []).bind (fun h => writeAll h lines)).map
        (HashFile.hash hexdigest) =
      ((HashFile.open_file rname "r" lines.flatten).bind readAll).map
        (HashFile.hash hexdigest) ∧
    ((HashFile.open_file rname "r" lines.flatten).bind readAll).map
        (HashFile.hash hexdigest) = Except.ok (hexdigest lines.flatten) := by
  have hopw : HashFile.open_file wname "w" [] = Except.ok
      { name := wname, mode := "w", toRead := [], written := [], sha := [] } := by
    rw [HashFile.open_file, if_neg (by simp)]
    rw [if_neg (by decide)]
  have hopr : HashFile.open_file rname "r" lines.flatten = Except.ok
      { name := rname, mode := "r", toRead := lines.flatten, written := [],
        sha := [] } := by
    rw [HashFile.open_file, if_neg (by simp)]
    rw [if_pos (by decide)]
  have hwrite := writeAll_w lines
    { name := wname, mode := "w", toRead := [], written := [], sha := [] } rfl
  have hread := readAllLoop_r (lines.flatten.length + 1)
    { name := rname, mode := "r", toRead := lines.flatten, written := [], sha := [] }
    rfl (by simp)
  rw [hopw, hopr, Except.bind, Except.bind, hwrite, readAll]
  simp only
  rw [hread, Except.map, Except.map, HashFile.hash, HashFile.hash]
  exact ⟨rfl, rfl⟩

/-- C8: a read-mode HashFile refuses every write, and a write-mode HashFile
refuses every readline and every attempt to iterate, in each case with the
traced usage-error class `Error` (not the recoverable `Failure`); the
constructor rejects any mode other than 'r' or 'w' (with ValueError). -/
theorem C8_hashfile_mode_guards (hfr hfw : HashFile) (text : List Char)
    (name mode : String) (content : List Char)
    (hr : hfr.mode = "r") (hw : hfw.mode = "w")
    (hm1 : mode ≠ "r") (hm2 : mode ≠ "w") :
    hfr.write text = Except.error (PyError.error
      ("Cannot write to HashFile \x27" ++ hfr.name ++ "\x27, opened for read")) ∧
    hfw.readline = Except.error (PyError.error
      ("Cannot read from HashFile \x27" ++ hfw.name ++ "\x27, opened for write")) ∧
    hfw.iter = Except.error (PyError.error
      ("Cannot iterate over HashFile \x27" ++ hfw.name ++ "\x27, opened for write")) ∧
    HashFile.open_file name mode content = Except.error (PyError.valueError
      ("HashFile \x27mode\x27 must be one of \x27r\x27 or \x27w\x27, not \x27"
        ++ mode ++ "\x27")) := by
  refine ⟨?_, ?_, ?_, ?_⟩
  · rw [HashFile.write, if_pos (by rw [hr]; decide)]
  · rw [HashFile.readline, if_pos (by rw [hw]; decide)]
  · rw [HashFile.iter, if_pos (by rw [hw]; decide)]
  · rw [HashFile.open_file, if_pos ⟨hm1, hm2⟩]

/-- Witness for C8: a concrete read-mode file, a concrete write-mode file,
and mode "x". -/
theorem C8_hashfile_mode_guards_witness :
    HashFile.write ⟨"fr", "r", [], [], []⟩ (pyStr "hi") = Except.error (PyError.error
      "Cannot write to HashFile \x27fr\x27, opened for read") ∧
    HashFile.readline ⟨"fw", "w", [], [], []⟩ = Except.error (PyError.error
      "Cannot read from HashFile \x27fw\x27, opened for write") ∧
    HashFile.iter ⟨"fw", "w", [], [], []⟩ = Except.error (PyError.error
      "Cannot iterate over HashFile \x27fw\x27, opened for write") ∧
    HashFile.open_file "f" "x" [] = Except.error (PyError.valueError
      "HashFile \x27mode\x27 must be one of \x27r\x27 or \x27w\x27, not \x27x\x27") :=
  C8_hashfile_mode_guards ⟨"fr", "r", [], [], []⟩ ⟨"fw", "w", [], [], []⟩
    (pyStr "hi") "f" "x" [] rfl rfl (by decide) (by decide)

/-
C10 works over arbitrary interleavings of HashFile operations from a fresh
handle.  `HFOp.hashCall` models a call of `hash()`: by hashlib's contract
`sha.hexdigest()` reads the accumulator without mutating it, so in the model
it leaves the state untouched (and `runOps hf (hashCall :: ops) =
runOps hf ops` holds definitionally, i.e. interposed hash() calls do not
perturb anything, and two consecutive calls trivially agree).
-/

/-- One observable HashFile operation: a write, a readline, or a hash()
query. -/
inductive HFOp where
  | write (text : List Char)
  | readline
  | hashCall

/-- Run a list of operations from a given HashFile state, collecting the
bytes successfully written or returned by readline; an exception aborts the
run (as in Python). -/
def runOps : HashFile → List HFOp → Except PyError (HashFile × List Char)
  | hf, [] => Except.ok (hf, [])
  | hf, HFOp.write t :: rest =>
    match hf.write t with
    | Except.error e => Except.error e
    | Except.ok h =>
      match runOps h rest with
      | Except.error e => Except.error e
      | Except.ok (h2, bs) => Except.ok (h2, t ++ bs)
  | hf, HFOp.readline :: rest =>
    match hf.readline with
    | Except.error e => Except.error e
    | Except.ok (text, h) =>
      match runOps h rest with
      | Except.error e => Except.error e
      | Except.ok (h2, bs) => Except.ok (h2, text ++ bs)
  | hf, HFOp.hashCall :: rest => runOps hf rest

lemma write_ok_sha {hf h2 : HashFile} {t : List Char}
    (h : hf.write t = Except.ok h2) : h2.sha = hf.sha ++ t := by
  rw [HashFile.write] at h
  split at h
  · cases h
  · cases h
    rfl

lemma readline_ok_sha {hf h2 : HashFile} {text : List Char}
    (h : hf.readline = Except.ok (text, h2)) : h2.sha = hf.sha ++ text := by
  rw [HashFile.readline] at h
  split at h
  · cases h
  · simp only at h
    split at h
    · cases h
      simp
    · cases h
      rfl

lemma runOps_sha (ops : List HFOp) (hf hf1 : HashFile) (bs : List Char)
    (h : runOps hf ops = Except.ok (hf1, bs)) : hf1.sha = hf.sha ++ bs := by
  induction ops generalizing hf hf1 bs with
  | nil =>
    rw [runOps] at h
    cases h
    simp
  | cons op rest ih =>
    cases op with
    | write t =>
      rw [runOps] at h
      split at h
      · cases h
      · rename_i h' heq
        split at h
        · cases h
        · rename_i h2 bs' hrec
          cases h
          rw [ih _ _ _ hrec, write_ok_sha heq, List.append_assoc]
    | readline =>
      rw [runOps] at h
      split at h
      · cases h
      · rename_i text h' heq
        split at h
        · cases h
        · rename_i h2 bs' hrec
          cases h
          rw [ih _ _ _ hrec, readline_ok_sha heq, List.append_assoc]
    | hashCall =>
      rw [runOps] at h
      exact ih _ _ _ h

/-- C10: from a fresh HashFile (empty SHA1 accumulator), after any successful
sequence of write/readline/hash() operations, hash() returns the digest of
exactly the bytes written or returned by readline so far (hash() itself,
modelled as hashlib documents hexdigest(), reads without mutating, so calls
to it do not perturb later digests and consecutive calls agree); and a
readline at end of file on any read-mode handle returns '' and folds nothing
into the digest — it leaves the state, hence every later hash(), unchanged. -/
theorem C10_hash_is_digest_of_bytes_so_far (hexdigest : List Char → String)
    (hf hf1 : HashFile) (ops : List HFOp) (bs : List Char)
    (hsha : hf.sha = []) (h : runOps hf ops = Except.ok (hf1, bs))
    (g : HashFile) (hgm : g.mode = "r") (hgt : g.toRead = []) :
    HashFile.hash hexdigest hf1 = hexdigest bs ∧
    g.readline = Except.ok ([], g) ∧
    runOps hf (HFOp.hashCall :: ops) = runOps hf ops := by
  refine ⟨?_, ?_, rfl⟩
  · rw [HashFile.hash, runOps_sha ops hf hf1 bs h, hsha, List.nil_append]
  · obtain ⟨n, m, tr, w, s⟩ := g
    simp only at hgm hgt
    subst hgm hgt
    rw [HashFile.readline, if_neg (by simp)]
    simp [py_readline]

/-- Witness for C10: read a two-line file to EOF with a hash() call
interposed. -/
theorem C10_hash_is_digest_of_bytes_so_far_witness :
    HashFile.hash String.mk ⟨"f", "r", [], [], pyStr "ab\x0ac"⟩ =
      String.mk (pyStr "ab\x0ac") ∧
    HashFile.readline ⟨"g", "r", [], [], pyStr "z"⟩ =
      Except.ok ([], ⟨"g", "r", [], [], pyStr "z"⟩) ∧
    runOps ⟨"f", "r", pyStr "ab\x0ac", [], []⟩
        (HFOp.hashCall :: [HFOp.readline, HFOp.hashCall, HFOp.readline]) =
      runOps ⟨"f", "r", pyStr "ab\x0ac", [], []⟩
        [HFOp.readline, HFOp.hashCall, HFOp.readline] :=
  C10_hash_is_digest_of_bytes_so_far String.mk
    ⟨"f", "r", pyStr "ab\x0ac", [], []⟩ ⟨"f", "r", [], [], pyStr "ab\x0ac"⟩
    [HFOp.readline, HFOp.hashCall, HFOp.readline] (pyStr "ab\x0ac")
    rfl rfl ⟨"g", "r", [], [], pyStr "z"⟩ rfl rfl

end Muddle
